import Mathlib

/-!
Verification of the eye-colour prediction engine of `parser.py`.

The scoring core is embedded shallowly:

* Python dicts keyed by strings become association lists `List (String × _)`,
  preserving insertion order (Python dicts iterate in insertion order).
* Float arithmetic on scores is embedded over `ℚ`: every constant in the
  source (weights, the 0.9 and 30 thresholds, quality scores) is a decimal
  literal, so the score pipeline is exact rational arithmetic.
* `math.exp` and the softmax normalisation are embedded over `ℝ` with
  `Real.exp`; the softmax claims are proved as exact real facts (which imply
  the spec's floating-point tolerance statements).
-/

/-- Mirror of the Python dataclass `SNPInfo` (parser.py lines 23-34). -/
structure SNPInfo where
  rsid : String
  gene : String
  chromosome : String
  position : Nat
  function : String
  reference_allele : String
  alternate_allele : String
  population_frequency : List (String × ℚ)
  clinical_significance : String

/-- Mirror of the Python dataclass `GenotypeResult` (parser.py lines 36-44). -/
structure GenotypeResult where
  rsid : String
  genotype : String
  alleles : String × String
  zygosity : String
  quality_score : ℚ
  read_depth : ℤ

/-- A per-class vector of values, one per eye colour, standing for the Python
dicts with exactly the keys "blue", "brown", "green", "hazel" in that
insertion order. -/
structure ColorVec where
  blue : ℚ
  brown : ℚ
  green : ℚ
  hazel : ℚ
deriving DecidableEq

/-- Mirror of `SNP_DATABASE` (parser.py lines 47-71): the descriptive metadata
table, holding exactly two markers. -/
def SNP_DATABASE : List (String × SNPInfo) :=
  [("rs12913832",
    { rsid := "rs12913832", gene := "HERC2", chromosome := "15",
      position := 28365618,
      function := "Regulatory element for OCA2 expression",
      reference_allele := "A", alternate_allele := "G",
      population_frequency := [("EUR", 0.78), ("AFR", 0.10), ("EAS", 0.15)],
      clinical_significance := "Strongly associated with blue/brown eye color" }),
   ("rs1800407",
    { rsid := "rs1800407", gene := "OCA2", chromosome := "15",
      position := 28033793,
      function := "Melanin biosynthesis",
      reference_allele := "A", alternate_allele := "G",
      population_frequency := [("EUR", 0.65), ("AFR", 0.20), ("EAS", 0.25)],
      clinical_significance := "Secondary determinant of eye color" })]

/-- Mirror of `SNP_WEIGHTS` (parser.py lines 74-100): marker identifier →
genotype string → per-class weight vector. -/
def SNP_WEIGHTS : List (String × List (String × ColorVec)) :=
  [("rs12913832",
    [("AA", ⟨0.8, -0.6, 0.2, 0.1⟩),
     ("AG", ⟨0.4, -0.3, 0.1, 0.05⟩),
     ("GG", ⟨-0.6, 0.8, -0.2, -0.1⟩)]),
   ("rs1800407",
    [("AA", ⟨0.6, -0.4, 0.3, 0.2⟩),
     ("AG", ⟨0.3, -0.2, 0.15, 0.1⟩),
     ("GG", ⟨-0.4, 0.6, -0.2, -0.1⟩)]),
   ("rs1129038",
    [("AA", ⟨0.4, -0.3, 0.2, 0.1⟩),
     ("AG", ⟨0.2, -0.15, 0.1, 0.05⟩),
     ("GG", ⟨-0.3, 0.4, -0.1, -0.05⟩)]),
   ("rs12203592",
    [("AA", ⟨-0.1, -0.1, 0.4, 0.3⟩),
     ("AG", ⟨-0.05, -0.05, 0.2, 0.15⟩),
     ("GG", ⟨0.1, 0.1, -0.2, -0.15⟩)]),
   ("rs16891982",
    [("AA", ⟨-0.3, 0.4, -0.1, -0.1⟩),
     ("AG", ⟨-0.15, 0.2, -0.05, -0.05⟩),
     ("GG", ⟨0.2, -0.3, 0.1, 0.1⟩)])]

/-- An observation set: the `snp_data` dict, marker identifier → observation,
as an insertion-ordered association list. -/
abbrev SnpData := List (String × GenotypeResult)

/-- The weight table consulted at parser.py line 169: `rsid in SNP_WEIGHTS and
result.genotype in SNP_WEIGHTS[rsid]`; `none` when either membership test
fails. -/
def lookupWeights (rsid genotype : String) : Option ColorVec :=
  match SNP_WEIGHTS.lookup rsid with
  | none => none
  | some table => table.lookup genotype

/-- The quality multiplier of parser.py line 172:
`quality_factor = result.quality_score * (result.read_depth / 30)`
(Python 3 true division, uncapped). -/
def quality_factor (r : GenotypeResult) : ℚ :=
  r.quality_score * ((r.read_depth : ℚ) / 30)

/-- One iteration of the accumulation loop of parser.py lines 168-174. -/
def scoreStep (acc : ColorVec) (e : String × GenotypeResult) : ColorVec :=
  match lookupWeights e.1 e.2.genotype with
  | none => acc
  | some w =>
      let qf := quality_factor e.2
      ⟨acc.blue + w.blue * qf, acc.brown + w.brown * qf,
       acc.green + w.green * qf, acc.hazel + w.hazel * qf⟩

/-- Mirror of `calculate_eye_color_score` (parser.py lines 152-176): the four
accumulators start at zero and each observation is folded in. -/
def calculate_eye_color_score (snp_data : SnpData) : ColorVec :=
  snp_data.foldl scoreStep ⟨0, 0, 0, 0⟩

/-- Probabilities, one per eye colour, in the same key order as the scores
dict. -/
structure ProbVec where
  blue : ℝ
  brown : ℝ
  green : ℝ
  hazel : ℝ

/-- Exponential of a rational score, the `math.exp(score)` of parser.py
line 188. -/
noncomputable def softmaxExp (q : ℚ) : ℝ := Real.exp (q : ℝ)

/-- The `total = sum(exp_scores.values())` of parser.py line 189. -/
noncomputable def expTotal (s : ColorVec) : ℝ :=
  softmaxExp s.blue + softmaxExp s.brown + softmaxExp s.green + softmaxExp s.hazel

/-- Mirror of `normalize_scores` (parser.py lines 178-191): plain softmax,
each exponential divided by the total. -/
noncomputable def normalize_scores (s : ColorVec) : ProbVec :=
  ⟨softmaxExp s.blue / expTotal s, softmaxExp s.brown / expTotal s,
   softmaxExp s.green / expTotal s, softmaxExp s.hazel / expTotal s⟩

/-- The quality band of one observation, parser.py lines 205-210: the
`quality_score` gate is checked before the `read_depth` gate. -/
def quality_note (r : GenotypeResult) : String :=
  if r.quality_score < 0.9 then "Low quality - consider re-sequencing"
  else if r.read_depth < 20 then "Low coverage - results may be unreliable"
  else "High quality"

/-- Mirror of `analyze_genotype_quality` (parser.py lines 193-212): one note
per observation, keyed by the marker identifier, in iteration order. -/
def analyze_genotype_quality (snp_data : SnpData) : List (String × String) :=
  snp_data.map (fun e => (e.1, quality_note e.2))

/-- One comparison step of Python's `max(probabilities.items(),
key=lambda x: x[1])`: the running best is replaced only by a strictly greater
value, so the first maximum in iteration order wins. -/
noncomputable def maxStep (best x : String × ℝ) : String × ℝ :=
  if best.2 < x.2 then x else best

/-- The label selection of parser.py line 240: `max` over the probability
items in dict insertion order "blue", "brown", "green", "hazel". -/
noncomputable def select_label (p : ProbVec) : String :=
  (([("brown", p.brown), ("green", p.green), ("hazel", p.hazel)]).foldl
    maxStep ("blue", p.blue)).1

/-- Mirror of `predict_eye_color` (parser.py lines 214-250): the empty
observation set short-circuits to the "unknown" sentinel (line 231);
otherwise score, normalise, pick the max-probability label, and attach the
quality notes. -/
noncomputable def predict_eye_color (snp_data : SnpData) :
    String × ProbVec × List (String × String) :=
  match snp_data with
  | [] => ("unknown", ⟨0.25, 0.25, 0.25, 0.25⟩, [])
  | _ =>
      let scores := calculate_eye_color_score snp_data
      let probabilities := normalize_scores scores
      (select_label probabilities, probabilities,
       analyze_genotype_quality snp_data)

/-! Derived notions used to state the claims. -/

/-- The term one observation adds to a chosen class accumulator, transcribed
from the specification's description of `score`: weight times
`quality_score * (read_depth / 30.0)` when the marker has a weight table and
the genotype matches a key, zero otherwise. -/
def observation_term (pick : ColorVec → ℚ) (e : String × GenotypeResult) : ℚ :=
  match lookupWeights e.1 e.2.genotype with
  | none => 0
  | some w => pick w * (e.2.quality_score * ((e.2.read_depth : ℚ) / 30))

/-- Modelled from the spec: the documented label choice, the first class in
the fixed order "blue" < "brown" < "green" < "hazel" whose probability is
greater than or equal to every class probability (first-max-wins). -/
noncomputable def spec_first_max (p : ProbVec) : String :=
  if p.brown ≤ p.blue ∧ p.green ≤ p.blue ∧ p.hazel ≤ p.blue then "blue"
  else if p.blue ≤ p.brown ∧ p.green ≤ p.brown ∧ p.hazel ≤ p.brown then "brown"
  else if p.blue ≤ p.green ∧ p.brown ≤ p.green ∧ p.hazel ≤ p.green then "green"
  else "hazel"

/-- The analogous first-max choice over the raw rational scores; softmax is
strictly monotone, so it selects the same class as `spec_first_max` over the
normalised probabilities. -/
def first_max_scores (s : ColorVec) : String :=
  if s.brown ≤ s.blue ∧ s.green ≤ s.blue ∧ s.hazel ≤ s.blue then "blue"
  else if s.blue ≤ s.brown ∧ s.green ≤ s.brown ∧ s.hazel ≤ s.brown then "brown"
  else if s.blue ≤ s.green ∧ s.brown ≤ s.green ∧ s.hazel ≤ s.green then "green"
  else "hazel"

/-- The probability a `ProbVec` assigns to a class name. -/
noncomputable def colorProb (p : ProbVec) (c : String) : ℝ :=
  if c = "blue" then p.blue
  else if c = "brown" then p.brown
  else if c = "green" then p.green
  else if c = "hazel" then p.hazel
  else 0

/-- The projection of an observation the scoring and quality passes read:
the marker key, the genotype string, the quality score and the read depth.
The `alleles` and `zygosity` fields are outside this view. -/
def observation_view (e : String × GenotypeResult) : String × String × ℚ × ℤ :=
  (e.1, e.2.genotype, e.2.quality_score, e.2.read_depth)

/-- Concrete observation used by several concrete instances below:
genotype "AA" at rs12913832 with quality 0.99 and depth 30. -/
def obs_AA_high : GenotypeResult :=
  { rsid := "rs12913832", genotype := "AA", alleles := ("A", "A"),
    zygosity := "homozygous", quality_score := 0.99, read_depth := 30 }

/-! Helper lemmas. -/

lemma scoreStep_term (acc : ColorVec) (e : String × GenotypeResult) :
    scoreStep acc e =
      ⟨acc.blue + observation_term ColorVec.blue e,
       acc.brown + observation_term ColorVec.brown e,
       acc.green + observation_term ColorVec.green e,
       acc.hazel + observation_term ColorVec.hazel e⟩ := by
  cases h : lookupWeights e.1 e.2.genotype <;>
    simp [scoreStep, observation_term, quality_factor, h, mul_assoc]

lemma foldl_scoreStep (l : SnpData) (acc : ColorVec) :
    l.foldl scoreStep acc =
      ⟨acc.blue + (l.map (observation_term ColorVec.blue)).sum,
       acc.brown + (l.map (observation_term ColorVec.brown)).sum,
       acc.green + (l.map (observation_term ColorVec.green)).sum,
       acc.hazel + (l.map (observation_term ColorVec.hazel)).sum⟩ := by
  induction l generalizing acc with
  | nil => simp
  | cons e t ih =>
      simp only [List.foldl_cons, ih, scoreStep_term, List.map_cons, List.sum_cons]
      congr 1 <;> ring

lemma expTotal_pos (s : ColorVec) : 0 < expTotal s := by
  unfold expTotal softmaxExp
  positivity

lemma normalize_blue_mem (s : ColorVec) :
    0 < (normalize_scores s).blue ∧ (normalize_scores s).blue < 1 := by
  unfold normalize_scores
  constructor
  · exact div_pos (Real.exp_pos _) (expTotal_pos s)
  · rw [div_lt_one (expTotal_pos s)]
    unfold expTotal
    have h1 := Real.exp_pos ((s.brown : ℝ))
    have h2 := Real.exp_pos ((s.green : ℝ))
    have h3 := Real.exp_pos ((s.hazel : ℝ))
    unfold softmaxExp
    linarith

lemma normalize_brown_mem (s : ColorVec) :
    0 < (normalize_scores s).brown ∧ (normalize_scores s).brown < 1 := by
  unfold normalize_scores
  constructor
  · exact div_pos (Real.exp_pos _) (expTotal_pos s)
  · rw [div_lt_one (expTotal_pos s)]
    unfold expTotal
    have h1 := Real.exp_pos ((s.blue : ℝ))
    have h2 := Real.exp_pos ((s.green : ℝ))
    have h3 := Real.exp_pos ((s.hazel : ℝ))
    unfold softmaxExp
    linarith

lemma normalize_green_mem (s : ColorVec) :
    0 < (normalize_scores s).green ∧ (normalize_scores s).green < 1 := by
  unfold normalize_scores
  constructor
  · exact div_pos (Real.exp_pos _) (expTotal_pos s)
  · rw [div_lt_one (expTotal_pos s)]
    unfold expTotal
    have h1 := Real.exp_pos ((s.blue : ℝ))
    have h2 := Real.exp_pos ((s.brown : ℝ))
    have h3 := Real.exp_pos ((s.hazel : ℝ))
    unfold softmaxExp
    linarith

lemma normalize_hazel_mem (s : ColorVec) :
    0 < (normalize_scores s).hazel ∧ (normalize_scores s).hazel < 1 := by
  unfold normalize_scores
  constructor
  · exact div_pos (Real.exp_pos _) (expTotal_pos s)
  · rw [div_lt_one (expTotal_pos s)]
    unfold expTotal
    have h1 := Real.exp_pos ((s.blue : ℝ))
    have h2 := Real.exp_pos ((s.brown : ℝ))
    have h3 := Real.exp_pos ((s.green : ℝ))
    unfold softmaxExp
    linarith

lemma normalize_sum_one (s : ColorVec) :
    (normalize_scores s).blue + (normalize_scores s).brown +
      (normalize_scores s).green + (normalize_scores s).hazel = 1 := by
  unfold normalize_scores
  rw [div_add_div_same, div_add_div_same, div_add_div_same]
  exact div_self (ne_of_gt (expTotal_pos s))

lemma max_attained (a b c d : ℝ) :
    (b ≤ a ∧ c ≤ a ∧ d ≤ a) ∨ (a ≤ b ∧ c ≤ b ∧ d ≤ b) ∨
    (a ≤ c ∧ b ≤ c ∧ d ≤ c) ∨ (a ≤ d ∧ b ≤ d ∧ c ≤ d) := by
  rcases le_total a b with h1 | h1 <;> rcases le_total c d with h2 | h2 <;>
    rcases le_total a c with h3 | h3 <;> rcases le_total a d with h4 | h4 <;>
    rcases le_total b c with h5 | h5 <;> rcases le_total b d with h6 | h6 <;>
    first
      | exact Or.inl ⟨by linarith, by linarith, by linarith⟩
      | exact Or.inr (Or.inl ⟨by linarith, by linarith, by linarith⟩)
      | exact Or.inr (Or.inr (Or.inl ⟨by linarith, by linarith, by linarith⟩))
      | exact Or.inr (Or.inr (Or.inr ⟨by linarith, by linarith, by linarith⟩))

lemma select_label_eq_spec (p : ProbVec) : select_label p = spec_first_max p := by
  unfold select_label spec_first_max maxStep
  simp only [List.foldl_cons, List.foldl_nil]
  split_ifs <;>
    rcases le_or_lt p.blue p.green with hg | hg <;>
    rcases le_or_lt p.green p.brown with hgb | hgb <;>
    first
      | rfl
      | linarith
      | (simp_all <;> linarith)

lemma spec_first_max_isMax (p : ProbVec) :
    p.blue ≤ colorProb p (spec_first_max p) ∧
    p.brown ≤ colorProb p (spec_first_max p) ∧
    p.green ≤ colorProb p (spec_first_max p) ∧
    p.hazel ≤ colorProb p (spec_first_max p) := by
  unfold spec_first_max
  split_ifs with h1 h2 h3 <;> simp [colorProb]
  · exact ⟨h1.1, h1.2.1, h1.2.2⟩
  · exact ⟨h2.1, h2.2.1, h2.2.2⟩
  · exact ⟨h3.1, h3.2.1, h3.2.2⟩
  · rcases max_attained p.blue p.brown p.green p.hazel with h | h | h | h
    · exact absurd h h1
    · exact absurd h h2
    · exact absurd h h3
    · exact ⟨h.1, h.2.1, h.2.2⟩

lemma softmax_div_le_iff (s : ColorVec) (a b : ℚ) :
    softmaxExp a / expTotal s ≤ softmaxExp b / expTotal s ↔ a ≤ b := by
  rw [div_le_div_iff_of_pos_right (expTotal_pos s)]
  unfold softmaxExp
  rw [Real.exp_le_exp, Rat.cast_le]

lemma spec_first_max_normalize (s : ColorVec) :
    spec_first_max (normalize_scores s) = first_max_scores s := by
  unfold spec_first_max first_max_scores normalize_scores
  simp only [softmax_div_le_iff]

lemma select_label_normalize (s : ColorVec) :
    select_label (normalize_scores s) = first_max_scores s := by
  rw [select_label_eq_spec, spec_first_max_normalize]

lemma scoreStep_view (acc : ColorVec) (e₁ e₂ : String × GenotypeResult)
    (h : observation_view e₁ = observation_view e₂) :
    scoreStep acc e₁ = scoreStep acc e₂ := by
  unfold observation_view at h
  simp only [Prod.mk.injEq] at h
  obtain ⟨h1, h2, h3, h4⟩ := h
  unfold scoreStep quality_factor
  rw [h1, h2, h3, h4]

lemma quality_note_view (e₁ e₂ : String × GenotypeResult)
    (h : observation_view e₁ = observation_view e₂) :
    quality_note e₁.2 = quality_note e₂.2 := by
  unfold observation_view at h
  simp only [Prod.mk.injEq] at h
  unfold quality_note
  rw [h.2.2.1, h.2.2.2]

lemma calculate_view (l₁ l₂ : SnpData)
    (h : l₁.map observation_view = l₂.map observation_view) :
    calculate_eye_color_score l₁ = calculate_eye_color_score l₂ := by
  unfold calculate_eye_color_score
  generalize (⟨0, 0, 0, 0⟩ : ColorVec) = acc
  induction l₁ generalizing l₂ acc with
  | nil =>
      have : l₂ = [] := by simpa using h.symm
      rw [this]
  | cons e t ih =>
      cases l₂ with
      | nil => simp at h
      | cons e' t' =>
          simp only [List.map_cons, List.cons.injEq] at h
          simp only [List.foldl_cons, scoreStep_view acc e e' h.1]
          exact ih t' h.2 (scoreStep acc e')

lemma analyze_view (l₁ l₂ : SnpData)
    (h : l₁.map observation_view = l₂.map observation_view) :
    analyze_genotype_quality l₁ = analyze_genotype_quality l₂ := by
  unfold analyze_genotype_quality
  induction l₁ generalizing l₂ with
  | nil =>
      have : l₂ = [] := by simpa using h.symm
      rw [this]
  | cons e t ih =>
      cases l₂ with
      | nil => simp at h
      | cons e' t' =>
          simp only [List.map_cons, List.cons.injEq] at h
          have hk : e.1 = e'.1 := by
            have h1 := h.1
            unfold observation_view at h1
            simp only [Prod.mk.injEq] at h1
            exact h1.1
          simp only [List.map_cons, List.cons.injEq]
          exact ⟨by rw [hk, quality_note_view e e' h.1], by simpa using ih t' h.2⟩

/-! Claim theorems. -/

/-- C1: for every observation set, each class's raw score equals the sum,
over exactly those observations whose marker has a weight table and whose
genotype string is a key in it, of `weight[class]` times the uncapped quality
multiplier `quality_score * (read_depth / 30.0)`; other observations add
nothing, and the multiplier exceeds 1 for high read depth (for example
quality 0.99 at depth 60 gives 1.98). -/
theorem C1_raw_score_sum :
    (∀ snp_data : SnpData,
        calculate_eye_color_score snp_data =
          ⟨(snp_data.map (observation_term ColorVec.blue)).sum,
           (snp_data.map (observation_term ColorVec.brown)).sum,
           (snp_data.map (observation_term ColorVec.green)).sum,
           (snp_data.map (observation_term ColorVec.hazel)).sum⟩) ∧
    1 < quality_factor { rsid := "rs12913832", genotype := "AA",
                         alleles := ("A", "A"), zygosity := "homozygous",
                         quality_score := 0.99, read_depth := 60 } := by
  constructor
  · intro snp_data
    rw [calculate_eye_color_score, foldl_scoreStep]
    norm_num
  · norm_num [quality_factor]

/-- C2: for every observation set, including the empty one, the probability
mapping predict returns has every value strictly between 0 and 1 and the four
values sum to exactly 1 (hence within the spec's 1e-9 tolerance). -/
theorem C2_probabilities_normalized (snp_data : SnpData) :
    0 < (predict_eye_color snp_data).2.1.blue ∧
      (predict_eye_color snp_data).2.1.blue < 1 ∧
    0 < (predict_eye_color snp_data).2.1.brown ∧
      (predict_eye_color snp_data).2.1.brown < 1 ∧
    0 < (predict_eye_color snp_data).2.1.green ∧
      (predict_eye_color snp_data).2.1.green < 1 ∧
    0 < (predict_eye_color snp_data).2.1.hazel ∧
      (predict_eye_color snp_data).2.1.hazel < 1 ∧
    (predict_eye_color snp_data).2.1.blue + (predict_eye_color snp_data).2.1.brown +
      (predict_eye_color snp_data).2.1.green + (predict_eye_color snp_data).2.1.hazel = 1 := by
  cases snp_data with
  | nil =>
      unfold predict_eye_color
      norm_num
  | cons e t =>
      have hb := normalize_blue_mem (calculate_eye_color_score (e :: t))
      have hbr := normalize_brown_mem (calculate_eye_color_score (e :: t))
      have hg := normalize_green_mem (calculate_eye_color_score (e :: t))
      have hh := normalize_hazel_mem (calculate_eye_color_score (e :: t))
      have hs := normalize_sum_one (calculate_eye_color_score (e :: t))
      exact ⟨hb.1, hb.2, hbr.1, hbr.2, hg.1, hg.2, hh.1, hh.2, hs⟩

/-- C3: the empty observation set yields the label "unknown", the uniform
distribution 0.25 per class, and an empty quality-notes mapping; the function
is total, so no exception is raised. -/
theorem C3_empty_input :
    predict_eye_color [] = ("unknown", ⟨0.25, 0.25, 0.25, 0.25⟩, []) := rfl

/-- C4 counterexample: at quality score 0.85 the note the code produces is
"Low quality - consider re-sequencing", which is none of the three fixed
strings the claim lists ("Low quality", "Low coverage", "High quality"). -/
theorem C4_counterexample :
    quality_note { rsid := "rs12913832", genotype := "AA",
                   alleles := ("A", "A"), zygosity := "homozygous",
                   quality_score := 0.85, read_depth := 30 } =
        "Low quality - consider re-sequencing" ∧
    "Low quality - consider re-sequencing" ≠ "Low quality" ∧
    "Low quality - consider re-sequencing" ≠ "Low coverage" ∧
    "Low quality - consider re-sequencing" ≠ "High quality" := by
  refine ⟨?_, by decide, by decide, by decide⟩
  norm_num [quality_note]

/-- C4 amended: every observation's quality note is exactly one of the three
fixed strings "Low quality - consider re-sequencing", "Low coverage - results
may be unreliable", "High quality"; the first holds exactly when
quality_score < 0.9 (regardless of read depth), the second exactly when
quality_score ≥ 0.9 and read_depth < 20, the third exactly when
quality_score ≥ 0.9 and read_depth ≥ 20 — exhaustive, mutually exclusive,
with the quality_score gate checked before the read_depth gate. -/
theorem C4_quality_bands (r : GenotypeResult) :
    (quality_note r = "Low quality - consider re-sequencing" ∨
     quality_note r = "Low coverage - results may be unreliable" ∨
     quality_note r = "High quality") ∧
    (quality_note r = "Low quality - consider re-sequencing" ↔
      r.quality_score < 0.9) ∧
    (quality_note r = "Low coverage - results may be unreliable" ↔
      (0.9 ≤ r.quality_score ∧ r.read_depth < 20)) ∧
    (quality_note r = "High quality" ↔
      (0.9 ≤ r.quality_score ∧ 20 ≤ r.read_depth)) := by
  unfold quality_note
  split_ifs with h1 h2
  · refine ⟨Or.inl rfl, ⟨fun _ => h1, fun _ => rfl⟩, ?_, ?_⟩
    · simp only [show ("Low quality - consider re-sequencing" =
          "Low coverage - results may be unreliable") = False by simp]
      simp only [false_iff]
      intro hc
      linarith [hc.1]
    · simp only [show ("Low quality - consider re-sequencing" =
          "High quality") = False by simp]
      simp only [false_iff]
      intro hc
      linarith [hc.1]
  · push_neg at h1
    refine ⟨Or.inr (Or.inl rfl), ?_, ⟨fun _ => ⟨h1, h2⟩, fun _ => rfl⟩, ?_⟩
    · simp only [show ("Low coverage - results may be unreliable" =
          "Low quality - consider re-sequencing") = False by simp]
      simp only [false_iff, not_lt]
      exact h1
    · simp only [show ("Low coverage - results may be unreliable" =
          "High quality") = False by simp]
      simp only [false_iff]
      intro hc
      linarith [hc.2]
  · push_neg at h1 h2
    refine ⟨Or.inr (Or.inr rfl), ?_, ?_, ⟨fun _ => ⟨h1, h2⟩, fun _ => rfl⟩⟩
    · simp only [show ("High quality" =
          "Low quality - consider re-sequencing") = False by simp]
      simp only [false_iff, not_lt]
      exact h1
    · simp only [show ("High quality" =
          "Low coverage - results may be unreliable") = False by simp]
      simp only [false_iff]
      intro hc
      linarith [hc.2]

/-- C5: for every non-empty observation set the returned label is the class
whose probability is greater than or equal to every class probability, ties
resolved by the fixed order "blue" < "brown" < "green" < "hazel" with the
first maximum winning (`spec_first_max` transcribes that documented rule). -/
theorem C5_label_first_max (l : SnpData) (h : l ≠ []) :
    (predict_eye_color l).1 = spec_first_max (predict_eye_color l).2.1 ∧
    (predict_eye_color l).2.1.blue ≤
      colorProb (predict_eye_color l).2.1 (predict_eye_color l).1 ∧
    (predict_eye_color l).2.1.brown ≤
      colorProb (predict_eye_color l).2.1 (predict_eye_color l).1 ∧
    (predict_eye_color l).2.1.green ≤
      colorProb (predict_eye_color l).2.1 (predict_eye_color l).1 ∧
    (predict_eye_color l).2.1.hazel ≤
      colorProb (predict_eye_color l).2.1 (predict_eye_color l).1 := by
  cases l with
  | nil => exact absurd rfl h
  | cons e t =>
      have hp : (predict_eye_color (e :: t)).2.1 =
          normalize_scores (calculate_eye_color_score (e :: t)) := rfl
      have hl : (predict_eye_color (e :: t)).1 =
          select_label (normalize_scores (calculate_eye_color_score (e :: t))) := rfl
      have he := select_label_eq_spec
        (normalize_scores (calculate_eye_color_score (e :: t)))
      have hm := spec_first_max_isMax
        (normalize_scores (calculate_eye_color_score (e :: t)))
      rw [hp, hl, he]
      exact ⟨rfl, hm.1, hm.2.1, hm.2.2.1, hm.2.2.2⟩

/-- C5 witness: the non-emptiness hypothesis discharged at the concrete
single-observation set on rs12913832. -/
theorem C5_label_first_max_witness :
    ([("rs12913832", obs_AA_high)] : SnpData) ≠ [] ∧
    ((predict_eye_color [("rs12913832", obs_AA_high)]).1 =
      spec_first_max (predict_eye_color [("rs12913832", obs_AA_high)]).2.1 ∧
    (predict_eye_color [("rs12913832", obs_AA_high)]).2.1.blue ≤
      colorProb (predict_eye_color [("rs12913832", obs_AA_high)]).2.1
        (predict_eye_color [("rs12913832", obs_AA_high)]).1 ∧
    (predict_eye_color [("rs12913832", obs_AA_high)]).2.1.brown ≤
      colorProb (predict_eye_color [("rs12913832", obs_AA_high)]).2.1
        (predict_eye_color [("rs12913832", obs_AA_high)]).1 ∧
    (predict_eye_color [("rs12913832", obs_AA_high)]).2.1.green ≤
      colorProb (predict_eye_color [("rs12913832", obs_AA_high)]).2.1
        (predict_eye_color [("rs12913832", obs_AA_high)]).1 ∧
    (predict_eye_color [("rs12913832", obs_AA_high)]).2.1.hazel ≤
      colorProb (predict_eye_color [("rs12913832", obs_AA_high)]).2.1
        (predict_eye_color [("rs12913832", obs_AA_high)]).1) :=
  ⟨by simp, C5_label_first_max _ (by simp)⟩

/-- C6: the documented concrete scenario, a single "AA" observation at
rs12913832 with quality 0.99 and depth 30: the multiplier is 0.99, the raw
scores are exactly blue 0.792, brown -0.594, green 0.198, hazel 0.099, the
predicted label is "blue", and the quality note is "High quality". -/
theorem C6_concrete_scenario :
    quality_factor obs_AA_high = 0.99 ∧
    calculate_eye_color_score [("rs12913832", obs_AA_high)] =
      ⟨0.792, -0.594, 0.198, 0.099⟩ ∧
    (predict_eye_color [("rs12913832", obs_AA_high)]).1 = "blue" ∧
    (predict_eye_color [("rs12913832", obs_AA_high)]).2.2 =
      [("rs12913832", "High quality")] := by
  have hs : calculate_eye_color_score [("rs12913832", obs_AA_high)] =
      ⟨0.792, -0.594, 0.198, 0.099⟩ := by
    norm_num [calculate_eye_color_score, scoreStep, lookupWeights, SNP_WEIGHTS,
      quality_factor, obs_AA_high, List.lookup]
  refine ⟨by norm_num [quality_factor, obs_AA_high], hs, ?_, ?_⟩
  · have hl : (predict_eye_color [("rs12913832", obs_AA_high)]).1 =
        select_label (normalize_scores
          (calculate_eye_color_score [("rs12913832", obs_AA_high)])) := rfl
    rw [hl, select_label_normalize, hs]
    norm_num [first_max_scores]
  · have hn : (predict_eye_color [("rs12913832", obs_AA_high)]).2.2 =
        analyze_genotype_quality [("rs12913832", obs_AA_high)] := rfl
    rw [hn]
    norm_num [analyze_genotype_quality, quality_note, obs_AA_high]

lemma score_append_none (s : SnpData) (o : String × GenotypeResult)
    (hw : lookupWeights o.1 o.2.genotype = none) :
    calculate_eye_color_score (s ++ [o]) = calculate_eye_color_score s := by
  unfold calculate_eye_color_score
  rw [List.foldl_append]
  simp [scoreStep, hw]

/-- C7: an observation on a marker with no weight table, or with a genotype
matching no key of its marker's table, leaves the raw scores of any
observation set unchanged when appended, and no error is raised (the scoring
function is total). -/
theorem C7_unmatched_observation_zero (s : SnpData) (o : String × GenotypeResult)
    (h : SNP_WEIGHTS.lookup o.1 = none ∨
         ∃ table, SNP_WEIGHTS.lookup o.1 = some table ∧
           table.lookup o.2.genotype = none) :
    calculate_eye_color_score (s ++ [o]) = calculate_eye_color_score s := by
  apply score_append_none
  unfold lookupWeights
  rcases h with h | ⟨table, h1, h2⟩
  · rw [h]
  · rw [h1]
    exact h2

/-- An observation on a marker carrying no weight table at all. -/
def obs_unknown : String × GenotypeResult :=
  ("rs9999999",
   { rsid := "rs9999999", genotype := "AA", alleles := ("A", "A"),
     zygosity := "homozygous", quality_score := 0.99, read_depth := 30 })

/-- C7 witness: the skip hypothesis discharged at the concrete unknown
marker rs9999999. -/
theorem C7_unmatched_observation_zero_witness :
    (SNP_WEIGHTS.lookup obs_unknown.1 = none ∨
     ∃ table, SNP_WEIGHTS.lookup obs_unknown.1 = some table ∧
       table.lookup obs_unknown.2.genotype = none) ∧
    calculate_eye_color_score ([("rs12913832", obs_AA_high)] ++ [obs_unknown]) =
      calculate_eye_color_score [("rs12913832", obs_AA_high)] :=
  ⟨Or.inl rfl, C7_unmatched_observation_zero _ _ (Or.inl rfl)⟩

/-- C8 counterexample: the descriptive metadata table `SNP_DATABASE` holds 2
markers while the weight table `SNP_WEIGHTS` holds 5, so the reference
weighting set does not cover fewer markers than the descriptive table — it
covers strictly more. -/
theorem C8_counterexample :
    SNP_DATABASE.length = 2 ∧ SNP_WEIGHTS.length = 5 ∧
    ¬ SNP_WEIGHTS.length < SNP_DATABASE.length := by
  refine ⟨rfl, rfl, ?_⟩
  decide

/-- C8 amended: every marker of the descriptive metadata table has an entry
in the weight table (so no metadata marker is skipped for lack of weights),
the weighting set covers strictly more markers than the descriptive table,
and a marker absent from the weight table is never scored: appending such an
observation leaves every class accumulator unchanged. -/
theorem C8_metadata_coverage :
    (∀ rsid info, (rsid, info) ∈ SNP_DATABASE →
        (SNP_WEIGHTS.lookup rsid).isSome = true) ∧
    SNP_DATABASE.length < SNP_WEIGHTS.length ∧
    (∀ (s : SnpData) (o : String × GenotypeResult),
        SNP_WEIGHTS.lookup o.1 = none →
        calculate_eye_color_score (s ++ [o]) = calculate_eye_color_score s) := by
  refine ⟨?_, by decide, ?_⟩
  · intro rsid info hm
    rw [SNP_DATABASE] at hm
    simp only [List.mem_cons, List.not_mem_nil, or_false, Prod.mk.injEq] at hm
    rcases hm with ⟨rfl, _⟩ | ⟨rfl, _⟩ <;> rfl
  · intro s o h
    apply score_append_none
    unfold lookupWeights
    rw [h]

/-- C9: two observation sets that agree marker by marker on the genotype
string, the quality score and the read depth (the `observation_view`
projection) produce identical predictions — the `alleles` and `zygosity`
fields never influence the label, the probabilities or the quality notes. -/
theorem C9_alleles_no_influence (l₁ l₂ : SnpData)
    (h : l₁.map observation_view = l₂.map observation_view) :
    predict_eye_color l₁ = predict_eye_color l₂ := by
  cases l₁ with
  | nil =>
      have : l₂ = [] := by simpa using h.symm
      rw [this]
  | cons e t =>
      cases l₂ with
      | nil => simp at h
      | cons e' t' =>
          have hc := calculate_view (e :: t) (e' :: t') h
          have ha := analyze_view (e :: t) (e' :: t') h
          show (select_label (normalize_scores (calculate_eye_color_score (e :: t))),
                normalize_scores (calculate_eye_color_score (e :: t)),
                analyze_genotype_quality (e :: t)) =
               (select_label (normalize_scores (calculate_eye_color_score (e' :: t'))),
                normalize_scores (calculate_eye_color_score (e' :: t')),
                analyze_genotype_quality (e' :: t'))
          rw [hc, ha]

/-- Same observation as `obs_AA_high` except for the alleles and zygosity
fields, which carry different values. -/
def obs_AA_oddfields : GenotypeResult :=
  { rsid := "rs12913832", genotype := "AA", alleles := ("G", "T"),
    zygosity := "heterozygous", quality_score := 0.99, read_depth := 30 }

/-- C9 witness: the agreement hypothesis discharged at two concrete
single-observation sets differing only in alleles and zygosity. -/
theorem C9_alleles_no_influence_witness :
    ([("rs12913832", obs_AA_high)] : SnpData).map observation_view =
      ([("rs12913832", obs_AA_oddfields)] : SnpData).map observation_view ∧
    predict_eye_color [("rs12913832", obs_AA_high)] =
      predict_eye_color [("rs12913832", obs_AA_oddfields)] :=
  ⟨rfl, C9_alleles_no_influence _ _ rfl⟩

/-- C10: for every non-empty observation set the quality-notes mapping of
the prediction has exactly the observation map's key sequence — every
observed marker gets a note, weighted or not. -/
theorem C10_notes_cover_keys (l : SnpData) (h : l ≠ []) :
    ((predict_eye_color l).2.2).map Prod.fst = l.map Prod.fst := by
  cases l with
  | nil => exact absurd rfl h
  | cons e t =>
      show (analyze_genotype_quality (e :: t)).map Prod.fst = _
      unfold analyze_genotype_quality
      rw [List.map_map]
      rfl

/-- C10 witness: the non-emptiness hypothesis discharged at a concrete
two-observation set whose second marker has no weight table. -/
theorem C10_notes_cover_keys_witness :
    ([("rs12913832", obs_AA_high), obs_unknown] : SnpData) ≠ [] ∧
    ((predict_eye_color [("rs12913832", obs_AA_high), obs_unknown]).2.2).map Prod.fst =
      ([("rs12913832", obs_AA_high), obs_unknown] : SnpData).map Prod.fst :=
  ⟨by simp, C10_notes_cover_keys _ (by simp)⟩
